import Mathlib

/-!
Verification of the `websockets.client` module (file `src/websockets/client.py`):
the client side of the WebSocket opening handshake and the `connect`
orchestration.  Python functions are embedded shallowly: fallible code returns
`Except PyError`, the mutation of the protocol object is threaded as an explicit
`Proto` state, and the nondeterministic inputs of the real code (the random
handshake key, the transport outcome, the parsed HTTP response) are parameters.

Code imported by `client.py` from sibling modules (`handshake.py`, `http.py`,
`uri.py`, `protocol.py`) is not part of the sources; those pieces are modelled
from the specification and marked as such in their doc comments.
-/

/-- Exceptions that the embedded code can raise.  `typeError` and `valueError`
are Python's built-in `TypeError` and `ValueError`; `invalidHandshake` is
`websockets.exceptions.InvalidHandshake` (the spec's `HandshakeError`).  The
spec's `ConfigurationError` corresponds to `ValueError`, the exception the TLS
misconfiguration guard in `connect` raises. -/
inductive PyError where
  | typeError (msg : String)
  | valueError (msg : String)
  | invalidHandshake (msg : String)
deriving DecidableEq

/-- Is an error the one the spec's taxonomy calls `ConfigurationError`
(Python `ValueError`, as raised by the TLS guard in `connect`)? -/
def PyError.isConfigurationError : PyError → Bool
  | .valueError _ => true
  | _ => false

/-- Connection states of `websockets.protocol`.  `client.py` uses
`CONNECTING` (initial class attribute) and `OPEN`. -/
inductive ConnState where
  | CONNECTING
  | OPEN
  | CLOSED
deriving DecidableEq

/-- The endpoint descriptor produced by `uri.parse_uri` (fields as used by
`client.py`: `secure`, `host`, `port`, `resource_name`). -/
structure WSUri where
  secure : Bool
  host : String
  port : Nat
  resource_name : String
deriving DecidableEq

/-- An HTTP header as a (name, value) pair. -/
abbrev Header := String × String

/-- One item yielded by iterating an `extra_headers` argument: either an
iterable of values (a tuple or list, of any length), or a non-iterable
value.  `for name, value in extra_headers` unpacks each item. -/
inductive PyItem where
  | seq (elems : List String)
  | atom
deriving DecidableEq

/-- The `extra_headers` argument: a mapping (unique keys, iterated via
`.items()`), a general iterable of items, or a value that is not iterable
at all (iterating it raises `TypeError` in Python). -/
inductive ExtraHeaders where
  | mapping (items : List Header)
  | iterable (items : List PyItem)
  | notIterable
deriving DecidableEq

/-- An iterable of proper (name, value) pairs — the well-formed special
case of `ExtraHeaders.iterable`. -/
def ExtraHeaders.pairs (l : List Header) : ExtraHeaders :=
  .iterable (l.map (fun p => PyItem.seq [p.1, p.2]))

/-- Python's `name, value = item` unpacking: a non-iterable item raises
`TypeError`, an iterable item of length other than two raises `ValueError`
(too many / not enough values to unpack). -/
def unpackPair : PyItem → Except PyError Header
  | .atom => .error (.typeError ("cannot unpack non-iterable object"))
  | .seq [a, b] => .ok (a, b)
  | .seq l =>
    if l.length < 2 then
      .error (.valueError ("not enough values to unpack (expected 2, got " ++
        toString l.length ++ ")"))
    else .error (.valueError ("too many values to unpack (expected 2)"))

/-- Iterate the items, unpacking each in order; the first failing item's
exception aborts the loop (`for name, value in extra_headers`). -/
def unpackAll : List PyItem → Except PyError (List Header)
  | [] => .ok []
  | it :: rest =>
    match unpackPair it with
    | .error e => .error e
    | .ok p =>
      match unpackAll rest with
      | .error e => .error e
      | .ok ps => .ok (p :: ps)

/-- The (name, value) pairs an `extra_headers` argument contributes when its
iteration succeeds (empty when absent or when iteration raises). -/
def extraPairsOf : Option ExtraHeaders → List Header
  | none => []
  | some (.mapping m) => m
  | some (.iterable its) =>
    match unpackAll its with
    | .ok ps => ps
    | .error _ => []
  | some .notIterable => []

/-- Modelled from the spec: `http.USER_AGENT`, the fixed identifying
User-Agent value (its exact text is outside the sources and irrelevant here). -/
def USER_AGENT : String := "Python/websockets"

/-- The fixed GUID of RFC 6455 used in the accept computation. -/
def WS_GUID : String := "258EAFA5-E914-47DA-95CA-C5AB0DC85B11"

/-- 2^32, the modulus for 32-bit words in SHA-1. -/
def M32 : Nat := 4294967296

/-- Left rotation of a 32-bit word. -/
def rotl (n x : Nat) : Nat := (x <<< n) % M32 + x >>> (32 - n)

/-- Big-endian grouping of bytes into 32-bit words. -/
def bytesToWords : List Nat → List Nat
  | a :: b :: c :: d :: rest => (((a * 256 + b) * 256 + c) * 256 + d) :: bytesToWords rest
  | _ => []

/-- SHA-1 message padding: a 1 bit, zeros, and the 64-bit big-endian bit
length, to a multiple of 64 bytes. -/
def sha1pad (msg : List Nat) : List Nat :=
  let bits := msg.length * 8
  msg ++ [128] ++ List.replicate ((64 - (msg.length + 9) % 64) % 64) 0 ++
    [(bits >>> 56) % 256, (bits >>> 48) % 256, (bits >>> 40) % 256, (bits >>> 32) % 256,
     (bits >>> 24) % 256, (bits >>> 16) % 256, (bits >>> 8) % 256, bits % 256]

/-- Extend a 16-word schedule by `n` further SHA-1 schedule words. -/
def sha1expand : Nat → List Nat → List Nat
  | 0, w => w
  | n + 1, w =>
    let l := w.length
    sha1expand n (w ++ [rotl 1 ((w.getD (l - 3) 0 ^^^ w.getD (l - 8) 0) ^^^
      (w.getD (l - 14) 0 ^^^ w.getD (l - 16) 0))])

/-- The SHA-1 round function for round `i`. -/
def sha1f (i b c d : Nat) : Nat :=
  if i < 20 then b &&& c ||| (b ^^^ (M32 - 1)) &&& d
  else if i < 40 then b ^^^ c ^^^ d
  else if i < 60 then b &&& c ||| b &&& d ||| c &&& d
  else b ^^^ c ^^^ d

/-- The SHA-1 round constant for round `i`. -/
def sha1k (i : Nat) : Nat :=
  if i < 20 then 1518500249
  else if i < 40 then 1859775393
  else if i < 60 then 2400959708
  else 3395469782

/-- One SHA-1 compression round. -/
def sha1step (st : Nat × Nat × Nat × Nat × Nat) (iw : Nat × Nat) :
    Nat × Nat × Nat × Nat × Nat :=
  ((rotl 5 st.1 + sha1f iw.1 st.2.1 st.2.2.1 st.2.2.2.1 + st.2.2.2.2 + sha1k iw.1 + iw.2) % M32,
   st.1, rotl 30 st.2.1, st.2.2.1, st.2.2.2.1)

/-- Process one 64-byte SHA-1 block. -/
def sha1block (h : Nat × Nat × Nat × Nat × Nat) (block : List Nat) :
    Nat × Nat × Nat × Nat × Nat :=
  let r := (sha1expand 64 (bytesToWords block)).enum.foldl sha1step h
  ((h.1 + r.1) % M32, (h.2.1 + r.2.1) % M32, (h.2.2.1 + r.2.2.1) % M32,
   (h.2.2.2.1 + r.2.2.2.1) % M32, (h.2.2.2.2 + r.2.2.2.2) % M32)

/-- Split a byte list into 64-byte chunks. -/
def chunks64 (l : List Nat) : List (List Nat) :=
  match l with
  | [] => []
  | x :: xs => (x :: xs).take 64 :: chunks64 ((x :: xs).drop 64)
termination_by l.length
decreasing_by simp [List.length_drop]; omega

/-- Big-endian bytes of a 32-bit word. -/
def wordBytes (w : Nat) : List Nat :=
  [(w >>> 24) % 256, (w >>> 16) % 256, (w >>> 8) % 256, w % 256]

/-- SHA-1 digest (20 bytes) of a byte list. -/
def sha1 (msg : List Nat) : List Nat :=
  let h := (chunks64 (sha1pad msg)).foldl sha1block
    (1732584193, 4023233417, 2562383102, 271733878, 3285377520)
  wordBytes h.1 ++ wordBytes h.2.1 ++ wordBytes h.2.2.1 ++
    wordBytes h.2.2.2.1 ++ wordBytes h.2.2.2.2

/-- The base64 alphabet. -/
def b64alphabet : String := "ABCDEFGHIJKLMNOPQRSTUVWXYZabcdefghijklmnopqrstuvwxyz0123456789+/"

/-- The base64 digit for a 6-bit value. -/
def b64char (n : Nat) : Char := b64alphabet.data.getD n (Char.ofNat 65)

/-- Standard base64 encoding of a byte list, with padding. -/
def base64encode : List Nat → String
  | [] => ""
  | [a] => String.mk [b64char (a >>> 2), b64char ((a % 4) <<< 4), Char.ofNat 61, Char.ofNat 61]
  | [a, b] => String.mk [b64char (a >>> 2), b64char (((a % 4) <<< 4) + (b >>> 4)),
      b64char ((b % 16) <<< 2), Char.ofNat 61]
  | a :: b :: c :: rest =>
    String.mk [b64char (a >>> 2), b64char (((a % 4) <<< 4) + (b >>> 4)),
      b64char (((b % 16) <<< 2) + (c >>> 6)), b64char (c % 64)] ++ base64encode rest

/-- ASCII bytes of a string (handshake keys and the GUID are ASCII). -/
def strBytes (s : String) : List Nat := s.data.map Char.toNat

/-- Modelled from the spec: `handshake.accept`, the expected accept value
base64(SHA-1(key concatenated with the fixed GUID)). -/
def accept (key : String) : String := base64encode (sha1 (strBytes (key ++ WS_GUID)))

/-- Modelled from the spec: `handshake.check_response` compares the response's
Sec-WebSocket-Accept header (empty string when absent, per the
`headers.get(k, chr 39 ++ chr 39)` default in `client.py`) with the expected
accept value and raises `InvalidHandshake` on mismatch or absence. -/
def check_response (get_header : String → String) (key : String) : Except PyError Unit :=
  if get_header ("Sec-WebSocket-Accept") = accept key then .ok ()
  else .error (.invalidHandshake ("Invalid Sec-WebSocket-Accept"))

/-- Character-wise lower-casing (header names are ASCII, so this is
Python's `str.lower` on them). -/
def strLower (s : String) : String := String.mk (s.data.map Char.toLower)

/-- Case-insensitive header-name comparison, as done by
`email.message.Message`. -/
def lowerEq (a b : String) : Bool := strLower a == strLower b

/-- First header value for a name, case-insensitively
(`email.message.Message.get` with default `None`). -/
def hfind (hs : List Header) (k : String) : Option String :=
  (hs.find? (fun p => lowerEq p.1 k)).map (fun p => p.2)

/-- First header value for a name with a default
(`email.message.Message.get(k, d)`). -/
def hget (hs : List Header) (k d : String) : String := (hfind hs k).getD d

/-- The scheme's default port: 443 when secure, 80 otherwise
(`443 if wsuri.secure else 80` in `client.py`). -/
def defaultPort (secure : Bool) : Nat := if secure then 443 else 80

/-- The Host header value: the bare host at the scheme's default port,
`host:port` otherwise (lines 61-64 of `client.py`). -/
def hostHeaderValue (u : WSUri) : String :=
  if u.port = defaultPort u.secure then u.host
  else u.host ++ ":" ++ toString u.port

/-- The Origin header contribution (line 65-66 of `client.py`). -/
def originHeaders : Option String → List Header
  | some o => [("Origin", o)]
  | none => []

/-- An offer header contribution: emitted when the offer list is provided
(`is not None`), with the tokens joined by comma-space (lines 67-72 of
`client.py`). -/
def offerHeader (name : String) : Option (List String) → List Header
  | some l => [(name, String.intercalate (", ") l)]
  | none => []

/-- The `extra_headers` iteration of lines 73-77: a mapping contributes its
items, a general iterable is unpacked item by item (a bad item raising its
unpacking exception), and a non-iterable value raises `TypeError` on
entering the loop (Python semantics of `for name, value in extra_headers`). -/
def extraHeaderItems : Option ExtraHeaders → Except PyError (List Header)
  | none => .ok []
  | some (.mapping m) => .ok m
  | some (.iterable its) => unpackAll its
  | some .notIterable => .error (.typeError ("object is not iterable"))

/-- The headers appended before the `extra_headers` contribution. -/
def preHeaders (u : WSUri) (origin : Option String) (ae as : Option (List String)) :
    List Header :=
  ("Host", hostHeaderValue u) :: (originHeaders origin ++
    offerHeader ("Sec-WebSocket-Extensions") ae ++
    offerHeader ("Sec-WebSocket-Protocol") as)

/-- The headers appended after the `extra_headers` contribution: the
User-Agent header and then the handshake-key header.  The key header is
modelled from the spec (`handshake.build_request` appends the dedicated
key header; the key itself, random in the source, is a parameter here). -/
def postHeaders (key : String) : List Header :=
  [("User-Agent", USER_AGENT), ("Sec-WebSocket-Key", key)]

/-- The full outbound header set built by `handshake` (lines 59-79 of
`client.py`): Host, optional Origin, optional offer headers, the
`extra_headers` contribution, User-Agent, and the key header. -/
def buildHeaders (u : WSUri) (origin : Option String) (ae as : Option (List String))
    (extra : Option ExtraHeaders) (key : String) : Except PyError (List Header) :=
  match extraHeaderItems extra with
  | .error e => .error e
  | .ok eh => .ok (preHeaders u origin ae as ++ eh ++ postHeaders key)

/-- Python's `str.split` with an explicit separator never collapses or
drops fields: this is the character-level splitter on commas.  The
accumulator holds the current field reversed. -/
def splitCommaAux : List Char → List Char → List String
  | [], acc => [String.mk acc.reverse]
  | c :: rest, acc =>
    if c == ',' then String.mk acc.reverse :: splitCommaAux rest []
    else splitCommaAux rest (c :: acc)

/-- Python's `s.split(sep)` for the one-character separator comma. -/
def splitComma (s : String) : List String := splitCommaAux s.data []

/-- The whitespace characters removed by Python's `str.strip`. -/
def isPySpace (c : Char) : Bool :=
  c == ' ' || c == '\t' || c == '\n' || c == '\r' || c == Char.ofNat 11 || c == Char.ofNat 12

/-- Python's `str.strip`: remove leading and trailing whitespace. -/
def pyStrip (s : String) : String :=
  String.mk (((s.data.dropWhile isPySpace).reverse.dropWhile isPySpace).reverse)

/-- The comma-split, whitespace-trimmed token list of a
Sec-WebSocket-Extensions response value (line 110 of `client.py`:
`[e.strip() for e in extensions.split(comma)]`). -/
def parseExtensionList (s : String) : List String :=
  (splitComma s).map (fun t => pyStrip t)

/-- Python's `x not in opt` where `opt` is an optional list: a membership
test on a list, a `TypeError` on `None`. -/
def notInOpt (x : String) : Option (List String) → Except PyError Bool
  | none => .error (.typeError ("argument of type NoneType is not iterable"))
  | some l => .ok (!(l.contains x))

/-- `WebSocketClientProtocol.verify_extensions` (lines 123-131): every
server-selected extension must be a member of `available_extensions`; the
first non-member raises `InvalidHandshake` naming it. -/
def verify_extensions (avail : Option (List String)) : List String → Except PyError Unit
  | [] => .ok ()
  | e :: rest =>
    match notInOpt e avail with
    | .error err => .error err
    | .ok true => .error (.invalidHandshake ("Unknown extension: " ++ e))
    | .ok false => verify_extensions avail rest

/-- `WebSocketClientProtocol.verify_subprotocol` (lines 133-140): the
server-selected subprotocol, taken as a whole, must be a member of
`available_subprotocols`. -/
def verify_subprotocol (avail : Option (List String)) (s : String) : Except PyError Unit :=
  match notInOpt s avail with
  | .error err => .error err
  | .ok true => .error (.invalidHandshake ("Unknown subprotocol: " ++ s))
  | .ok false => .ok ()

/-- The mutable protocol attributes of `WebSocketClientProtocol` touched by
`handshake`: the connection state and the negotiated extensions and
subprotocol. -/
structure Proto where
  state : ConnState
  extensions : Option (List String)
  subprotocol : Option String
deriving DecidableEq

/-- The protocol object as created: state `CONNECTING`, nothing negotiated. -/
def initProto : Proto := { state := .CONNECTING, extensions := none, subprotocol := none }

/-- Lines 114-121 of `handshake`: verify and record the server-selected
subprotocol if the response names one, then set the state to `OPEN`. -/
def subprotocolPhase (avSub : Option (List String)) (rhs : List Header) (p : Proto) :
    Proto × Except PyError Unit :=
  match hfind rhs ("Sec-WebSocket-Protocol") with
  | some s =>
    match verify_subprotocol avSub s with
    | .error e => (p, .error e)
    | .ok _ => ({ p with subprotocol := some s, state := .OPEN }, .ok ())
  | none => ({ p with state := .OPEN }, .ok ())

/-- Lines 108-112 of `handshake`: split, verify and record the
server-selected extensions if the response names any, then continue with the
subprotocol phase. -/
def extensionsPhase (avExt avSub : Option (List String)) (rhs : List Header) :
    Proto × Except PyError Unit :=
  match hfind rhs ("Sec-WebSocket-Extensions") with
  | some s =>
    match verify_extensions avExt (parseExtensionList s) with
    | .error e => (initProto, .error e)
    | .ok _ => subprotocolPhase avSub rhs { initProto with extensions := some (parseExtensionList s) }
  | none => subprotocolPhase avSub rhs initProto

/-- `WebSocketClientProtocol.handshake` (lines 40-121 of `client.py`) as a
function from its inputs to the final protocol attributes and the outcome.
The random key and the parsed HTTP response (`Except Unit` reflecting that
`read_response` may fail for any reason) are parameters; request writing has
no observable effect here beyond building the header set. -/
def handshake (u : WSUri) (origin : Option String) (avExt avSub : Option (List String))
    (extra : Option ExtraHeaders) (key : String)
    (resp : Except Unit (Nat × List Header)) : Proto × Except PyError Unit :=
  match buildHeaders u origin avExt avSub extra key with
  | .error e => (initProto, .error e)
  | .ok _ =>
    match resp with
    | .error _ => (initProto, .error (.invalidHandshake ("Malformed HTTP message")))
    | .ok (status, rhs) =>
      if status ≠ 101 then
        (initProto, .error (.invalidHandshake ("Bad status code: " ++ toString status)))
      else
        match check_response (fun k => hget rhs k ("")) key with
        | .error e => (initProto, .error e)
        | .ok _ => extensionsPhase avExt avSub rhs

/-- The `ssl` keyword argument of `connect`: Python `True` or an SSL
context. -/
inductive SSLParam where
  | boolTrue
  | ctx (n : Nat)
deriving DecidableEq

/-- Observable connection-level events of `connect`: invoking
`create_connection`, and `close_connection(force=True)`. -/
inductive Ev where
  | openTransport
  | forceClose
deriving DecidableEq

/-- Lines 183-187 of `connect`: for a secure URI default `ssl` to `True`
(`kwds.setdefault`); for an insecure URI reject any supplied `ssl` with
`ValueError`. Returns the effective `ssl` argument. -/
def tlsPolicy (secure : Bool) (ssl : Option SSLParam) : Except PyError (Option SSLParam) :=
  if secure then .ok (some (ssl.getD .boolTrue))
  else
    match ssl with
    | some _ => .error (.valueError ("connect() received a SSL context for a ws:// URI. Use a wss:// URI to enable TLS."))
    | none => .ok none

/-- The observable outcome of a `connect` call: the event trace, the `ssl`
argument passed to `create_connection` (`none` when it was never invoked),
and the result — the protocol handle or the propagated exception. -/
structure ConnectOutcome where
  events : List Ev
  sslUsed : Option (Option SSLParam)
  result : Except PyError Proto

/-- `connect` (lines 143-210 of `client.py`): TLS policy check, transport
opening (outcome a parameter), the handshake, and on any handshake exception
a forced close followed by re-raising that exception. -/
def connect (u : WSUri) (ssl : Option SSLParam) (origin : Option String)
    (avExt avSub : Option (List String)) (extra : Option ExtraHeaders) (key : String)
    (transport : Except PyError Unit) (resp : Except Unit (Nat × List Header)) :
    ConnectOutcome :=
  match tlsPolicy u.secure ssl with
  | .error e => { events := [], sslUsed := none, result := .error e }
  | .ok ssl2 =>
    match transport with
    | .error e => { events := [.openTransport], sslUsed := some ssl2, result := .error e }
    | .ok _ =>
      match handshake u origin avExt avSub extra key resp with
      | (_, .error e) =>
        { events := [.openTransport, .forceClose], sslUsed := some ssl2, result := .error e }
      | (p, .ok _) =>
        { events := [.openTransport], sslUsed := some ssl2, result := .ok p }

/-- A concrete insecure endpoint at the default port. -/
def u0 : WSUri := { secure := false, host := "example.com", port := 80, resource_name := "/chat" }

/-- A concrete insecure endpoint at a non-default port. -/
def u1 : WSUri := { secure := false, host := "example.com", port := 8080, resource_name := "/chat" }

/-- A concrete secure endpoint at the default port. -/
def u2 : WSUri := { secure := true, host := "example.com", port := 443, resource_name := "/chat" }

/-- Whether a header with the given exact name occurs in a header set. -/
def headerEmitted (hs : List Header) (name : String) : Bool :=
  hs.any (fun p => p.1 == name)

/-- Headers with the given exact name in a header set. -/
def countName (hs : List Header) (name : String) : Nat :=
  hs.countP (fun p => p.1 == name)

/-- Claim C4 as stated, at a given builder input and output: each offer
header is emitted iff the corresponding offer list is non-empty (an absent
list counting as empty). -/
def offerClaimAsStated (ae as : Option (List String)) (hs : List Header) : Prop :=
  (headerEmitted hs ("Sec-WebSocket-Extensions") = true ↔ ae.getD [] ≠ []) ∧
  (headerEmitted hs ("Sec-WebSocket-Protocol") = true ↔ as.getD [] ≠ [])

/-- Claim C5 (mapping half) as stated, at a given mapping and builder
output: every key of the mapping occurs exactly once in the built header
sequence. -/
def mappingClaimAsStated (m : List Header) (hs : List Header) : Prop :=
  ∀ p ∈ m, countName hs p.1 = 1

/-- The header names the builder emits itself (outside the `extra_headers`
contribution) for a given configuration. -/
def autoNames (origin : Option String) (ae as : Option (List String)) : List String :=
  "Host" :: ((originHeaders origin).map Prod.fst ++
    (offerHeader ("Sec-WebSocket-Extensions") ae).map Prod.fst ++
    (offerHeader ("Sec-WebSocket-Protocol") as).map Prod.fst) ++
    ["User-Agent", "Sec-WebSocket-Key"]

theorem splitCommaAux_ne_nil (l acc : List Char) : splitCommaAux l acc ≠ [] := by
  induction l generalizing acc with
  | nil => simp [splitCommaAux]
  | cons c rest ih =>
    unfold splitCommaAux
    split
    · simp
    · exact ih (c :: acc)

theorem parseExtensionList_ne_nil (s : String) : parseExtensionList s ≠ [] := by
  unfold parseExtensionList splitComma
  simp only [ne_eq, List.map_eq_nil_iff]
  exact splitCommaAux_ne_nil s.data []


theorem hfind_cons_neg (p : Header) (hs : List Header) (k : String)
    (h : lowerEq p.1 k = false) : hfind (p :: hs) k = hfind hs k := by
  simp [hfind, List.find?_cons, h]

theorem hfind_cons_pos (p : Header) (hs : List Header) (k : String)
    (h : lowerEq p.1 k = true) : hfind (p :: hs) k = some p.2 := by
  simp [hfind, List.find?_cons, h]

theorem hfind_append_none (A B : List Header) (k : String)
    (h : ∀ p ∈ A, lowerEq p.1 k = false) : hfind (A ++ B) k = hfind B k := by
  induction A with
  | nil => rfl
  | cons p A ih =>
    rw [List.cons_append, hfind_cons_neg p (A ++ B) k (h p (by simp))]
    exact ih (fun q hq => h q (by simp [hq]))

theorem unpackAll_pairs (l : List Header) :
    unpackAll (l.map (fun p => PyItem.seq [p.1, p.2])) = .ok l := by
  induction l with
  | nil => rfl
  | cons p t ih =>
    show unpackAll (PyItem.seq [p.1, p.2] :: t.map (fun p => PyItem.seq [p.1, p.2])) =
      .ok (p :: t)
    unfold unpackAll
    rw [ih]
    rfl

theorem extraPairsOf_pairs (l : List Header) :
    extraPairsOf (some (.pairs l)) = l := by
  simp [ExtraHeaders.pairs, extraPairsOf, unpackAll_pairs]

theorem extraPairsOf_eq_of_ok (ex : Option ExtraHeaders) (eh : List Header)
    (h : extraHeaderItems ex = .ok eh) : extraPairsOf ex = eh := by
  cases ex with
  | none =>
    have he : eh = [] := by simpa [extraHeaderItems] using h.symm
    subst he
    rfl
  | some e =>
    cases e with
    | mapping m =>
      have he : eh = m := by simpa [extraHeaderItems] using h.symm
      subst he
      rfl
    | iterable its =>
      have hu : unpackAll its = .ok eh := by simpa [extraHeaderItems] using h
      simp [extraPairsOf, hu]
    | notIterable => simp [extraHeaderItems] at h

theorem buildHeaders_ok_elim {u : WSUri} {o : Option String} {ae as : Option (List String)}
    {ex : Option ExtraHeaders} {k : String} {hs : List Header}
    (hok : buildHeaders u o ae as ex k = .ok hs) :
    hs = preHeaders u o ae as ++ extraPairsOf ex ++ postHeaders k := by
  unfold buildHeaders at hok
  cases hx : extraHeaderItems ex with
  | error e =>
    rw [hx] at hok
    simp at hok
  | ok eh =>
    rw [hx] at hok
    rw [extraPairsOf_eq_of_ok ex eh hx]
    simpa [List.append_assoc] using (Except.ok.inj hok).symm

/-- Claim C3: for every endpoint descriptor, the Host header built by the
request builder omits the port exactly when the port equals the scheme's
default (80 when insecure, 443 when secure); otherwise its value is
`host:port`. -/
theorem host_header_omits_default_port (u : WSUri) (o : Option String)
    (ae as : Option (List String)) (ex : Option ExtraHeaders) (k : String) (hs : List Header)
    (hok : buildHeaders u o ae as ex k = .ok hs) :
    hget hs ("Host") ("") =
      (if u.port = (if u.secure then 443 else 80) then u.host
       else u.host ++ ":" ++ toString u.port) := by
  have hh := buildHeaders_ok_elim hok
  subst hh
  unfold hget
  rw [preHeaders, List.cons_append, List.cons_append,
    hfind_cons_pos ("Host", hostHeaderValue u) _ ("Host") rfl]
  simp [hostHeaderValue, defaultPort]

/-- Witness for C3 at concrete endpoints: a non-default port is appended,
the default port is omitted. -/
theorem host_header_omits_default_port_witness :
    hget [("Host", "example.com:8080"), ("User-Agent", USER_AGENT),
        ("Sec-WebSocket-Key", "K0")] ("Host") ("") = "example.com:8080" ∧
    hget [("Host", "example.com"), ("User-Agent", USER_AGENT),
        ("Sec-WebSocket-Key", "K0")] ("Host") ("") = "example.com" := by
  constructor
  · exact host_header_omits_default_port u1 none none none none ("K0") _ rfl
  · exact host_header_omits_default_port u0 none none none none ("K0") _ rfl

theorem hfind_append_orElse (A B : List Header) (k : String) :
    hfind (A ++ B) k = (hfind A k).orElse (fun _ => hfind B k) := by
  unfold hfind
  rw [List.find?_append]
  cases A.find? (fun p => lowerEq p.1 k) <;> simp

theorem hfind_eq_none (A : List Header) (k : String)
    (h : ∀ p ∈ A, lowerEq p.1 k = false) : hfind A k = none := by
  unfold hfind
  have hn : A.find? (fun p => lowerEq p.1 k) = none :=
    List.find?_eq_none.mpr (fun x hx => by simp [h x hx])
  rw [hn]
  rfl

theorem hfind_pre_ext (u : WSUri) (o : Option String) (ae as : Option (List String)) :
    hfind (preHeaders u o ae as) ("Sec-WebSocket-Extensions") =
      ae.map (fun l => String.intercalate (", ") l) := by
  cases o <;> cases ae <;> cases as <;> rfl

theorem hfind_pre_proto (u : WSUri) (o : Option String) (ae as : Option (List String)) :
    hfind (preHeaders u o ae as) ("Sec-WebSocket-Protocol") =
      as.map (fun l => String.intercalate (", ") l) := by
  cases o <;> cases ae <;> cases as <;> rfl

/-- Counterexample to claim C4 as stated: with a supplied but empty extension
offer list the builder does emit a Sec-WebSocket-Extensions header (with empty
value), because the code tests `is not None`, not emptiness. -/
theorem offer_header_empty_list_emitted_cex :
    buildHeaders u0 none (some []) none none ("K0") =
      .ok [("Host", "example.com"), ("Sec-WebSocket-Extensions", ""),
        ("User-Agent", USER_AGENT), ("Sec-WebSocket-Key", "K0")] ∧
    ¬ offerClaimAsStated (some []) none
      [("Host", "example.com"), ("Sec-WebSocket-Extensions", ""),
        ("User-Agent", USER_AGENT), ("Sec-WebSocket-Key", "K0")] := by
  constructor
  · rfl
  · intro h
    exact absurd (h.1.mp (by decide)) (by decide)

/-- Claim C4, amended: the offer headers are emitted iff the corresponding
offer list is supplied (`is not None`) — not iff it is non-empty — and when
emitted their value is the offered tokens joined by comma-space in caller
order; an absent (None) offer list produces no header, while a supplied empty
list produces the header with empty value. -/
theorem offer_headers_iff_supplied (u : WSUri) (o : Option String)
    (ae as : Option (List String)) (ex : Option ExtraHeaders) (k : String) (hs : List Header)
    (hok : buildHeaders u o ae as ex k = .ok hs)
    (hx : ∀ p ∈ extraPairsOf ex, lowerEq p.1 ("Sec-WebSocket-Extensions") = false ∧
      lowerEq p.1 ("Sec-WebSocket-Protocol") = false) :
    hfind hs ("Sec-WebSocket-Extensions") = ae.map (fun l => String.intercalate (", ") l) ∧
    hfind hs ("Sec-WebSocket-Protocol") = as.map (fun l => String.intercalate (", ") l) := by
  have hh := buildHeaders_ok_elim hok
  subst hh
  rw [List.append_assoc]
  constructor
  · rw [hfind_append_orElse, hfind_pre_ext]
    rw [hfind_append_orElse, hfind_eq_none _ _ (fun p hp => (hx p hp).1),
      show hfind (postHeaders k) ("Sec-WebSocket-Extensions") = none from rfl]
    cases ae <;> rfl
  · rw [hfind_append_orElse, hfind_pre_proto]
    rw [hfind_append_orElse, hfind_eq_none _ _ (fun p hp => (hx p hp).2),
      show hfind (postHeaders k) ("Sec-WebSocket-Protocol") = none from rfl]
    cases as <;> rfl

/-- Witness for the amended C4 at concrete inputs: offered extension and
subprotocol lists produce the joined header values; here the empty extension
list still yields the (empty-valued) header and a two-element subprotocol
list yields a comma-space join. -/
theorem offer_headers_iff_supplied_witness :
    hfind [("Host", "example.com"), ("Sec-WebSocket-Extensions", ""),
        ("Sec-WebSocket-Protocol", "chat, superchat"), ("X-Custom", "1"),
        ("User-Agent", USER_AGENT), ("Sec-WebSocket-Key", "K0")]
      ("Sec-WebSocket-Extensions") = some "" ∧
    hfind [("Host", "example.com"), ("Sec-WebSocket-Extensions", ""),
        ("Sec-WebSocket-Protocol", "chat, superchat"), ("X-Custom", "1"),
        ("User-Agent", USER_AGENT), ("Sec-WebSocket-Key", "K0")]
      ("Sec-WebSocket-Protocol") = some "chat, superchat" := by
  have h := offer_headers_iff_supplied u0 none (some []) (some ["chat", "superchat"])
    (some (.pairs [("X-Custom", "1")])) ("K0") _ rfl (by decide)
  exact ⟨h.1, h.2⟩

theorem countName_append (A B : List Header) (k : String) :
    countName (A ++ B) k = countName A k + countName B k := by
  simp [countName, List.countP_append]

theorem countName_eq_zero_of (A : List Header) (k : String)
    (h : ∀ p ∈ A, (p.1 == k) = false) : countName A k = 0 := by
  unfold countName
  rw [List.countP_eq_zero]
  intro p hp
  simp [h p hp]

theorem countName_mem_nodup (m : List Header) (k : String)
    (hnd : (m.map Prod.fst).Nodup) (hk : k ∈ m.map Prod.fst) : countName m k = 1 := by
  induction m with
  | nil => simp at hk
  | cons p m ih =>
    rw [List.map_cons, List.nodup_cons] at hnd
    rw [List.map_cons] at hk
    rcases List.mem_cons.mp hk with h | h
    · have hz : countName m k = 0 := by
        apply countName_eq_zero_of
        intro q hq
        apply beq_eq_false_iff_ne.mpr
        intro e
        apply hnd.1
        have hmem : q.1 ∈ m.map Prod.fst := List.mem_map_of_mem Prod.fst hq
        rw [e, h] at hmem
        exact hmem
      unfold countName at hz ⊢
      rw [List.countP_cons, hz]
      simp [h]
    · have h1 : countName m k = 1 := ih hnd.2 h
      have hpk : (p.1 == k) = false := beq_eq_false_iff_ne.mpr (fun e => hnd.1 (e ▸ h))
      unfold countName at h1 ⊢
      rw [List.countP_cons, h1, hpk]
      simp

theorem preHeaders_name_mem (u : WSUri) (o : Option String) (ae as : Option (List String)) :
    ∀ q ∈ preHeaders u o ae as, q.1 ∈ autoNames o ae as := by
  intro q hq
  cases o <;> cases ae <;> cases as <;>
    simp only [preHeaders, originHeaders, offerHeader, autoNames, List.map, List.cons_append,
      List.nil_append, List.mem_cons, List.not_mem_nil, or_false, List.mem_append] at hq ⊢ <;>
    aesop

theorem postHeaders_name_mem (k : String) (o : Option String) (ae as : Option (List String)) :
    ∀ q ∈ postHeaders k, q.1 ∈ autoNames o ae as := by
  intro q hq
  rcases (by simpa [postHeaders] using hq : q = ("User-Agent", USER_AGENT) ∨
      q = ("Sec-WebSocket-Key", k)) with h | h <;>
    subst h <;> simp [autoNames]

/-- Counterexample to claim C5 as stated: a unique-key mapping whose key
collides with a builder-emitted header name does not appear exactly once in
the built sequence — the mapping key `Host` yields two Host headers. -/
theorem extra_mapping_key_collision_cex :
    buildHeaders u0 none none none (some (.mapping [("Host", "x")])) ("K0") =
      .ok [("Host", "example.com"), ("Host", "x"), ("User-Agent", USER_AGENT),
        ("Sec-WebSocket-Key", "K0")] ∧
    ¬ mappingClaimAsStated [("Host", "x")]
      [("Host", "example.com"), ("Host", "x"), ("User-Agent", USER_AGENT),
        ("Sec-WebSocket-Key", "K0")] := by
  constructor
  · rfl
  · intro h
    exact absurd (h ("Host", "x") (by simp)) (by decide)

/-- Claim C5, amended: a unique-key mapping contributes each of its keys
exactly once to the built header sequence provided the key is none of the
automatically emitted header names (Host, Origin, the offer headers,
User-Agent, the key header) — a colliding key appears twice; an ordered
sequence of pairs is appended verbatim between the automatic prefix and
suffix, duplicates preserved in original order. -/
theorem extra_headers_mapping_once_pairs_order (u : WSUri) (o : Option String)
    (ae as : Option (List String)) (k : String) (m ps hs1 hs2 : List Header) :
    (buildHeaders u o ae as (some (.mapping m)) k = .ok hs1 →
      (m.map Prod.fst).Nodup →
      (∀ p ∈ m, p.1 ∉ autoNames o ae as) →
      ∀ p ∈ m, countName hs1 p.1 = 1) ∧
    (buildHeaders u o ae as (some (.pairs ps)) k = .ok hs2 →
      hs2 = preHeaders u o ae as ++ ps ++ postHeaders k) := by
  constructor
  · intro hok hnd hdisj p hp
    have hh := buildHeaders_ok_elim hok
    subst hh
    have hpre : countName (preHeaders u o ae as) p.1 = 0 :=
      countName_eq_zero_of _ _ (fun q hq =>
        beq_eq_false_iff_ne.mpr (fun e => hdisj p hp (e ▸ preHeaders_name_mem u o ae as q hq)))
    have hpost : countName (postHeaders k) p.1 = 0 :=
      countName_eq_zero_of _ _ (fun q hq =>
        beq_eq_false_iff_ne.mpr (fun e => hdisj p hp (e ▸ postHeaders_name_mem k o ae as q hq)))
    have hm : countName m p.1 = 1 :=
      countName_mem_nodup m p.1 hnd (List.mem_map_of_mem Prod.fst hp)
    rw [show extraPairsOf (some (ExtraHeaders.mapping m)) = m from rfl]
    rw [countName_append, countName_append, hpre, hm, hpost]
  · intro hok
    have h := buildHeaders_ok_elim hok
    rwa [extraPairsOf_pairs] at h

/-- Witness for the amended C5 at concrete inputs: a mapping key `X-A`
(disjoint from the automatic names) appears exactly once; a pairs sequence
with the duplicate name `X-A` is appended verbatim in order. -/
theorem extra_headers_mapping_once_pairs_order_witness :
    countName [("Host", "example.com"), ("X-A", "1"), ("X-B", "2"),
      ("User-Agent", USER_AGENT), ("Sec-WebSocket-Key", "K0")] ("X-A") = 1 ∧
    [("Host", "example.com"), ("X-A", "1"), ("X-A", "2"),
        ("User-Agent", USER_AGENT), ("Sec-WebSocket-Key", "K0")] =
      preHeaders u0 none none none ++ [("X-A", "1"), ("X-A", "2")] ++ postHeaders ("K0") := by
  constructor
  · exact (extra_headers_mapping_once_pairs_order u0 none none none ("K0")
      [("X-A", "1"), ("X-B", "2")] [] _ [] ).1 rfl (by decide) (by decide) ("X-A", "1") (by simp)
  · exact (extra_headers_mapping_once_pairs_order u0 none none none ("K0")
      [] [("X-A", "1"), ("X-A", "2")] [] _ ).2 rfl

/-- Counterexample to claim C6 as stated: a non-iterable `extra_headers`
value makes the builder fail with Python's `TypeError`, which is not the
spec's `ConfigurationError` (the `ValueError` class used by the TLS guard). -/
theorem extra_headers_not_iterable_cex :
    buildHeaders u0 none none none (some .notIterable) ("K0") =
      .error (.typeError ("object is not iterable")) ∧
    (PyError.typeError ("object is not iterable")).isConfigurationError = false :=
  ⟨rfl, rfl⟩

theorem unpackPair_seq_wrong_length (l : List String) (h : l.length ≠ 2) :
    unpackPair (.seq l) =
      (if l.length < 2 then
        .error (.valueError ("not enough values to unpack (expected 2, got " ++
          toString l.length ++ ")"))
      else .error (.valueError ("too many values to unpack (expected 2)"))) := by
  match l with
  | [] => rfl
  | [a] => rfl
  | [a, b] => exact absurd rfl h
  | a :: b :: c :: t => rfl

theorem unpackAll_good_then_bad (ps : List Header) (bad : PyItem) (rest : List PyItem)
    (e : PyError) (hbad : unpackPair bad = .error e) :
    unpackAll (ps.map (fun p => PyItem.seq [p.1, p.2]) ++ bad :: rest) = .error e := by
  induction ps with
  | nil =>
    show unpackAll (bad :: rest) = .error e
    unfold unpackAll
    rw [hbad]
  | cons p t ih =>
    show unpackAll (PyItem.seq [p.1, p.2] ::
      (t.map (fun p => PyItem.seq [p.1, p.2]) ++ bad :: rest)) = .error e
    unfold unpackAll
    rw [ih]
    rfl

/-- Claim C6, amended: when `extra_headers` is neither a mapping nor an
iterable of (name, value) pairs, the request builder always fails, but not
uniformly with `ConfigurationError`: a non-iterable argument, like a
non-iterable item of an otherwise good iterable, raises `TypeError`, while
an iterable item of the wrong length raises `ValueError` — the class the
TLS guard's `ConfigurationError` corresponds to — from the loop's
unpacking; the failure surfaces at the first offending item. -/
theorem extra_headers_invalid_failure_modes (u : WSUri) (o : Option String)
    (ae as : Option (List String)) (k : String) (ps : List Header) (bad : PyItem)
    (rest : List PyItem) (e : PyError) (l : List String) :
    ((unpackPair bad = .error e →
       buildHeaders u o ae as
         (some (.iterable (ps.map (fun p => PyItem.seq [p.1, p.2]) ++ bad :: rest))) k =
         .error e) ∧
     buildHeaders u o ae as (some .notIterable) k =
       .error (.typeError ("object is not iterable")) ∧
     unpackPair PyItem.atom = .error (.typeError ("cannot unpack non-iterable object")) ∧
     (2 < l.length →
       unpackPair (.seq l) =
         .error (.valueError ("too many values to unpack (expected 2)"))) ∧
     (l.length < 2 →
       unpackPair (.seq l) =
         .error (.valueError ("not enough values to unpack (expected 2, got " ++
           toString l.length ++ ")")))) := by
  refine ⟨?hfirst, rfl, rfl, ?hmany, ?hfew⟩
  · intro hbad
    unfold buildHeaders
    rw [show extraHeaderItems
        (some (.iterable (ps.map (fun p => PyItem.seq [p.1, p.2]) ++ bad :: rest))) =
      unpackAll (ps.map (fun p => PyItem.seq [p.1, p.2]) ++ bad :: rest) from rfl]
    rw [unpackAll_good_then_bad ps bad rest e hbad]
  · intro h2
    rw [unpackPair_seq_wrong_length l (by omega), if_neg (by omega)]
  · intro h2
    rw [unpackPair_seq_wrong_length l (by omega), if_pos h2]

/-- Witness for the amended C6 at concrete inputs: a three-element item
after a good pair fails the whole build with the unpacking `ValueError`
(too many values), and a one-element item unpacks to the not-enough
`ValueError`; the non-iterable case is covered by the hypothesis-free
conjuncts of the theorem itself. -/
theorem extra_headers_invalid_failure_modes_witness :
    buildHeaders u0 none none none
      (some (.iterable [PyItem.seq ["X-A", "1"], PyItem.seq ["a", "b", "c"]])) ("K0") =
      .error (.valueError ("too many values to unpack (expected 2)")) ∧
    unpackPair (PyItem.seq ["a"]) =
      .error (.valueError ("not enough values to unpack (expected 2, got " ++
        toString (1 : Nat) ++ ")")) := by
  constructor
  · exact (extra_headers_invalid_failure_modes u0 none none none ("K0") [("X-A", "1")]
      (PyItem.seq ["a", "b", "c"]) []
      (.valueError ("too many values to unpack (expected 2)")) ["a", "b", "c"]).1 rfl
  · exact (extra_headers_invalid_failure_modes u0 none none none ("K0") []
      PyItem.atom [] (.typeError ("x")) ["a"]).2.2.2.2 (by decide)

theorem verify_subprotocol_some (avail : List String) (s : String) :
    verify_subprotocol (some avail) s =
      (if s ∈ avail then .ok ()
       else .error (.invalidHandshake ("Unknown subprotocol: " ++ s))) := by
  unfold verify_subprotocol notInOpt
  by_cases h : s ∈ avail <;> simp [h]

theorem verify_subprotocol_none (s : String) :
    verify_subprotocol none s =
      .error (.typeError ("argument of type NoneType is not iterable")) := rfl

theorem verify_extensions_ok_iff (avail toks : List String) :
    verify_extensions (some avail) toks = .ok () ↔ ∀ t ∈ toks, t ∈ avail := by
  induction toks with
  | nil => simp [verify_extensions]
  | cons e rest ih =>
    by_cases he : e ∈ avail
    · simp [verify_extensions, notInOpt, he, ih]
    · simp [verify_extensions, notInOpt, he]

theorem verify_extensions_first_bad (avail toks : List String)
    (h : ¬ ∀ t ∈ toks, t ∈ avail) :
    ∃ t, t ∈ toks ∧ t ∉ avail ∧
      verify_extensions (some avail) toks =
        .error (.invalidHandshake ("Unknown extension: " ++ t)) := by
  induction toks with
  | nil => exact absurd (by simp) h
  | cons e rest ih =>
    by_cases he : e ∈ avail
    · have hrest : ¬ ∀ t ∈ rest, t ∈ avail := by
        intro hall
        exact h (by
          intro t ht
          rcases List.mem_cons.mp ht with h1 | h1
          · exact h1 ▸ he
          · exact hall t h1)
      obtain ⟨t, ht, hna, hv⟩ := ih hrest
      exact ⟨t, List.mem_cons_of_mem e ht, hna, by simp [verify_extensions, notInOpt, he, hv]⟩
    · exact ⟨e, List.mem_cons_self e rest, he, by simp [verify_extensions, notInOpt, he]⟩

theorem verify_extensions_none (toks : List String) (h : toks ≠ []) :
    verify_extensions none toks =
      .error (.typeError ("argument of type NoneType is not iterable")) := by
  cases toks with
  | nil => exact absurd rfl h
  | cons e rest => rfl

theorem subPhase_state_open_iff (avSub : Option (List String)) (rhs : List Header) (p : Proto)
    (hp : p.state = ConnState.CONNECTING) :
    ((subprotocolPhase avSub rhs p).1.state = ConnState.OPEN ↔
      ∀ s, hfind rhs ("Sec-WebSocket-Protocol") = some s →
        verify_subprotocol avSub s = .ok ()) := by
  unfold subprotocolPhase
  split
  · rename_i s hs
    rw [hs]
    split
    · rename_i e hv
      constructor
      · intro h
        simp only [] at h
        rw [hp] at h
        exact absurd h (by decide)
      · intro h
        have h2 := h s rfl
        rw [hv] at h2
        simp at h2
    · rename_i uu hv
      cases uu
      constructor
      · intro _ s2 e2
        cases e2
        exact hv
      · intro _
        simp
  · rename_i hs
    rw [hs]
    simp

theorem extPhase_state_open_iff (ae as : Option (List String)) (rhs : List Header) :
    ((extensionsPhase ae as rhs).1.state = ConnState.OPEN ↔
      ((∀ s, hfind rhs ("Sec-WebSocket-Extensions") = some s →
          verify_extensions ae (parseExtensionList s) = .ok ()) ∧
       (∀ s, hfind rhs ("Sec-WebSocket-Protocol") = some s →
          verify_subprotocol as s = .ok ()))) := by
  unfold extensionsPhase
  split
  · rename_i s hext
    rw [hext]
    split
    · rename_i e hv
      constructor
      · intro h
        simp only [] at h
        exact absurd h (by simp [initProto])
      · intro h
        have h2 := h.1 s rfl
        rw [hv] at h2
        simp at h2
    · rename_i uu hv
      cases uu
      rw [subPhase_state_open_iff as rhs _ rfl]
      constructor
      · intro h
        refine ⟨fun s2 e2 => ?hext2, h⟩
        cases e2
        exact hv
      · intro h
        exact h.2
  · rename_i hext
    rw [hext, subPhase_state_open_iff as rhs initProto rfl]
    simp

/-- Claim C1: the connection state is OPEN after `handshake` exactly when
every validation step succeeded — the request could be built, the response
parsed, the status code is 101, the accept-key check passed, every
server-selected extension was verified against the offers, and any
server-selected subprotocol was verified; on any path where one of these
checks fails the state is never set to OPEN. -/
theorem state_open_iff_all_checks (u : WSUri) (o : Option String)
    (ae as : Option (List String)) (ex : Option ExtraHeaders) (k : String)
    (resp : Except Unit (Nat × List Header)) :
    ((handshake u o ae as ex k resp).1.state = ConnState.OPEN ↔
      ((∃ hs, buildHeaders u o ae as ex k = .ok hs) ∧
       ∃ rhs, resp = .ok (101, rhs) ∧
         hget rhs ("Sec-WebSocket-Accept") ("") = accept k ∧
         (∀ s, hfind rhs ("Sec-WebSocket-Extensions") = some s →
            verify_extensions ae (parseExtensionList s) = .ok ()) ∧
         (∀ s, hfind rhs ("Sec-WebSocket-Protocol") = some s →
            verify_subprotocol as s = .ok ()))) := by
  unfold handshake
  split
  · rename_i e hb
    simp [initProto, hb]
  · rename_i hs0 hb
    split
    · rename_i uerr
      simp [initProto]
    · rename_i status rhs
      split
      · rename_i hst
        simp [initProto, hst]
      · rename_i hst
        have hst2 : status = 101 := not_not.mp hst
        subst hst2
        split
        · rename_i e hcr
          have hacc : ¬ (hget rhs ("Sec-WebSocket-Accept") ("") = accept k) := by
            intro hcc
            unfold check_response at hcr
            rw [if_pos hcc] at hcr
            simp at hcr
          constructor
          · intro h
            simp [initProto] at h
          · rintro ⟨-, rhs2, hre, hacc2, -, -⟩
            have h3 := Except.ok.inj hre
            have h4 : rhs = rhs2 := congrArg Prod.snd h3
            subst h4
            exact absurd hacc2 hacc
        · rename_i uu hcr
          have hacc : hget rhs ("Sec-WebSocket-Accept") ("") = accept k := by
            by_contra hcc
            unfold check_response at hcr
            rw [if_neg hcc] at hcr
            simp at hcr
          rw [extPhase_state_open_iff]
          constructor
          · intro h
            exact ⟨⟨hs0, hb⟩, rhs, rfl, hacc, h.1, h.2⟩
          · rintro ⟨-, rhs2, hre, -, h1, h2⟩
            have h3 := Except.ok.inj hre
            have h4 : rhs = rhs2 := congrArg Prod.snd h3
            subst h4
            exact ⟨h1, h2⟩

theorem handshake_to_extensionsPhase (u : WSUri) (o : Option String)
    (ae as : Option (List String)) (ex : Option ExtraHeaders) (k : String)
    (rhs : List Header) (hs0 : List Header)
    (hb : buildHeaders u o ae as ex k = .ok hs0)
    (hacc : hget rhs ("Sec-WebSocket-Accept") ("") = accept k) :
    handshake u o ae as ex k (.ok (101, rhs)) = extensionsPhase ae as rhs := by
  unfold handshake
  rw [hb]
  simp [check_response, hacc]

theorem tlsPolicy_none (secure : Bool) :
    tlsPolicy secure none = .ok (if secure then some SSLParam.boolTrue else none) := by
  cases secure <;> rfl

theorem connect_handshake_error_outcome (u : WSUri) (ssl : Option SSLParam)
    (o : Option String) (ae as : Option (List String)) (ex : Option ExtraHeaders) (k : String)
    (resp : Except Unit (Nat × List Header)) (ssl2 : Option SSLParam) (e : PyError)
    (htls : tlsPolicy u.secure ssl = .ok ssl2)
    (herr : (handshake u o ae as ex k resp).2 = .error e) :
    connect u ssl o ae as ex k (.ok ()) resp =
      { events := [.openTransport, .forceClose], sslUsed := some ssl2, result := .error e } := by
  obtain ⟨p, r, hh⟩ : ∃ p r, handshake u o ae as ex k resp = (p, r) := ⟨_, _, rfl⟩
  rw [hh] at herr
  simp only [] at herr
  subst herr
  unfold connect
  rw [htls, hh]

/-- Claim C2: whenever the handshake raises after the transport is opened,
`connect` force-closes the transport and re-raises the original exception
unchanged; no protocol handle is returned on any such failure path. -/
theorem connect_force_closes_on_handshake_error (u : WSUri) (ssl : Option SSLParam)
    (o : Option String) (ae as : Option (List String)) (ex : Option ExtraHeaders) (k : String)
    (resp : Except Unit (Nat × List Header)) (ssl2 : Option SSLParam) (e : PyError)
    (htls : tlsPolicy u.secure ssl = .ok ssl2)
    (herr : (handshake u o ae as ex k resp).2 = .error e) :
    connect u ssl o ae as ex k (.ok ()) resp =
      { events := [.openTransport, .forceClose], sslUsed := some ssl2, result := .error e } :=
  connect_handshake_error_outcome u ssl o ae as ex k resp ssl2 e htls herr

/-- Witness for C2 at a concrete input: a 200 response makes `connect`
force-close and propagate the bad-status handshake error, returning no
handle. -/
theorem connect_force_closes_on_handshake_error_witness :
    connect u0 none none none none none ("K0") (.ok ()) (.ok (200, [])) =
      { events := [.openTransport, .forceClose], sslUsed := some none,
        result := .error (.invalidHandshake ("Bad status code: " ++ toString (200 : Nat))) } :=
  connect_force_closes_on_handshake_error u0 none none none none none ("K0")
    (.ok (200, [])) none (.invalidHandshake ("Bad status code: " ++ toString (200 : Nat)))
    rfl rfl

/-- Claim C7: supplying a TLS configuration for a non-secure endpoint makes
`connect` fail with the `ValueError` guard (the spec's `ConfigurationError`)
before any network activity (no transport event, `create_connection` never
invoked); for a secure endpoint with no TLS configuration, `connect` passes
`ssl = True` (default verification) to the transport opening. -/
theorem tls_policy_guard (u : WSUri) (ssl : Option SSLParam) (o : Option String)
    (ae as : Option (List String)) (ex : Option ExtraHeaders) (k : String)
    (transport : Except PyError Unit) (resp : Except Unit (Nat × List Header)) :
    ((u.secure = false → ssl ≠ none →
       connect u ssl o ae as ex k transport resp =
         { events := [], sslUsed := none,
           result := .error (.valueError ("connect() received a SSL context for a ws:// URI. Use a wss:// URI to enable TLS.")) }) ∧
     (u.secure = true → ssl = none →
       (connect u ssl o ae as ex k transport resp).sslUsed =
         some (some SSLParam.boolTrue))) := by
  constructor
  · intro hsec hssl
    obtain ⟨c, rfl⟩ := Option.ne_none_iff_exists'.mp hssl
    unfold connect tlsPolicy
    rw [hsec]
    rfl
  · intro hsec hssl
    subst hssl
    unfold connect tlsPolicy
    rw [hsec]
    cases transport with
    | error e2 => rfl
    | ok uu =>
      obtain ⟨p, r, hh⟩ : ∃ p r, handshake u o ae as ex k resp = (p, r) := ⟨_, _, rfl⟩
      rw [hh]
      cases r <;> rfl

/-- Witness for C7 at concrete endpoints: an SSL context on a `ws://` URI is
rejected with the `ValueError` guard and no transport event, and a `wss://`
URI with no SSL argument opens the transport with `ssl = True`. -/
theorem tls_policy_guard_witness :
    connect u0 (some (.ctx 7)) none none none none ("K0") (.ok ()) (.ok (101, [])) =
      { events := [], sslUsed := none,
        result := .error (.valueError ("connect() received a SSL context for a ws:// URI. Use a wss:// URI to enable TLS.")) } ∧
    (connect u2 none none none none none ("K0") (.ok ()) (.ok (101, []))).sslUsed =
      some (some SSLParam.boolTrue) := by
  constructor
  · exact (tls_policy_guard u0 (some (.ctx 7)) none none none none ("K0")
      (.ok ()) (.ok (101, []))).1 rfl (by simp)
  · exact (tls_policy_guard u2 none none none none none ("K0")
      (.ok ()) (.ok (101, []))).2 rfl rfl

/-- Witness for C1 at a concrete successful handshake: a 101 response with
the correct accept value, a selected extension from the offer list and a
selected subprotocol from the offer list ends in state OPEN. -/
theorem state_open_iff_all_checks_witness :
    (handshake u0 none (some ["permessage-deflate"]) (some ["chat"]) none ("K0")
      (.ok (101, [("Sec-WebSocket-Accept", accept ("K0")),
        ("Sec-WebSocket-Extensions", "permessage-deflate"),
        ("Sec-WebSocket-Protocol", "chat")]))).1.state = ConnState.OPEN := by
  apply (state_open_iff_all_checks u0 none (some ["permessage-deflate"]) (some ["chat"])
    none ("K0") (.ok (101, [("Sec-WebSocket-Accept", accept ("K0")),
      ("Sec-WebSocket-Extensions", "permessage-deflate"),
      ("Sec-WebSocket-Protocol", "chat")]))).mpr
  refine ⟨⟨_, rfl⟩, _, rfl, rfl, ?ext, ?sub⟩
  · intro s e
    rw [show hfind [("Sec-WebSocket-Accept", accept ("K0")),
        ("Sec-WebSocket-Extensions", "permessage-deflate"),
        ("Sec-WebSocket-Protocol", "chat")] ("Sec-WebSocket-Extensions") =
      some ("permessage-deflate") from rfl] at e
    cases e
    rfl
  · intro s e
    rw [show hfind [("Sec-WebSocket-Accept", accept ("K0")),
        ("Sec-WebSocket-Extensions", "permessage-deflate"),
        ("Sec-WebSocket-Protocol", "chat")] ("Sec-WebSocket-Protocol") =
      some ("chat") from rfl] at e
    cases e
    rfl

theorem subPhase_extensions (avSub : Option (List String)) (rhs : List Header) (p : Proto) :
    (subprotocolPhase avSub rhs p).1.extensions = p.extensions := by
  unfold subprotocolPhase
  split
  · split <;> rfl
  · rfl

/-- Claim C8: with an offered extension list, a declared
Sec-WebSocket-Extensions response value is split on commas into trimmed
tokens; if every token is offered, exactly those tokens become the recorded
extensions, and if some token is not offered the handshake fails with
`InvalidHandshake` naming an offending token, with no extensions recorded
and the state left CONNECTING. -/
theorem unknown_extension_rejected (u : WSUri) (o : Option String) (avail : List String)
    (as : Option (List String)) (ex : Option ExtraHeaders) (k : String) (rhs : List Header)
    (s : String) (hs0 : List Header)
    (hb : buildHeaders u o (some avail) as ex k = .ok hs0)
    (hacc : hget rhs ("Sec-WebSocket-Accept") ("") = accept k)
    (hext : hfind rhs ("Sec-WebSocket-Extensions") = some s) :
    (((∀ t ∈ parseExtensionList s, t ∈ avail) →
        (handshake u o (some avail) as ex k (.ok (101, rhs))).1.extensions =
          some (parseExtensionList s)) ∧
     ((¬ ∀ t ∈ parseExtensionList s, t ∈ avail) →
        ∃ t, t ∈ parseExtensionList s ∧ t ∉ avail ∧
          handshake u o (some avail) as ex k (.ok (101, rhs)) =
            (initProto, .error (.invalidHandshake ("Unknown extension: " ++ t))))) := by
  have heq := handshake_to_extensionsPhase u o (some avail) as ex k rhs hs0 hb hacc
  constructor
  · intro hall
    have hv := (verify_extensions_ok_iff avail (parseExtensionList s)).mpr hall
    rw [heq]
    unfold extensionsPhase
    rw [hext]
    simp only [hv]
    rw [subPhase_extensions]
  · intro hbad
    obtain ⟨t, ht, hna, hv⟩ := verify_extensions_first_bad avail (parseExtensionList s) hbad
    refine ⟨t, ht, hna, ?hh⟩
    rw [heq]
    unfold extensionsPhase
    rw [hext]
    simp only [hv]

/-- Witness for C8 at concrete inputs: offered `permessage-deflate`, server
selecting `foo` fails with "Unknown extension: foo" and records nothing;
server selecting `permessage-deflate` records exactly that token. -/
theorem unknown_extension_rejected_witness :
    handshake u0 none (some ["permessage-deflate"]) none none ("K0")
      (.ok (101, [("Sec-WebSocket-Accept", accept ("K0")),
        ("Sec-WebSocket-Extensions", "foo")])) =
      (initProto, .error (.invalidHandshake ("Unknown extension: foo"))) ∧
    (handshake u0 none (some ["permessage-deflate"]) none none ("K0")
      (.ok (101, [("Sec-WebSocket-Accept", accept ("K0")),
        ("Sec-WebSocket-Extensions", "permessage-deflate")]))).1.extensions =
      some ["permessage-deflate"] := by
  constructor
  · obtain ⟨t, ht, hna, hv⟩ := (unknown_extension_rejected u0 none ["permessage-deflate"]
      none none ("K0")
      [("Sec-WebSocket-Accept", accept ("K0")), ("Sec-WebSocket-Extensions", "foo")]
      ("foo") _ rfl rfl rfl).2 (by decide)
    rw [show parseExtensionList ("foo") = ["foo"] from rfl] at ht
    obtain rfl : t = "foo" := List.mem_singleton.mp ht
    exact hv
  · have h1 := (unknown_extension_rejected u0 none ["permessage-deflate"] none none ("K0")
      [("Sec-WebSocket-Accept", accept ("K0")),
        ("Sec-WebSocket-Extensions", "permessage-deflate")]
      ("permessage-deflate") _ rfl rfl rfl).1 (by decide)
    rw [show parseExtensionList ("permessage-deflate") = ["permessage-deflate"] from rfl] at h1
    exact h1

/-- Claim C9: when no offer list was supplied at all (None rather than an
empty list) and the server nevertheless declares a selected extension
(respectively subprotocol), verification fails with `TypeError` — the
membership test against None — rather than with `InvalidHandshake`; the
handshake still fails with the state left CONNECTING, and `connect` still
force-closes the transport while propagating that `TypeError`. -/
theorem none_offers_type_error (u : WSUri) (o : Option String)
    (av : Option (List String)) (ex : Option ExtraHeaders) (k : String)
    (rhs : List Header) (s : String) (hs0 : List Header)
    (hacc : hget rhs ("Sec-WebSocket-Accept") ("") = accept k) :
    ((buildHeaders u o none av ex k = .ok hs0 →
      hfind rhs ("Sec-WebSocket-Extensions") = some s →
      handshake u o none av ex k (.ok (101, rhs)) =
        (initProto, .error (.typeError ("argument of type NoneType is not iterable"))) ∧
      connect u none o none av ex k (.ok ()) (.ok (101, rhs)) =
        { events := [.openTransport, .forceClose],
          sslUsed := some (if u.secure then some SSLParam.boolTrue else none),
          result := .error (.typeError ("argument of type NoneType is not iterable")) }) ∧
     (buildHeaders u o av none ex k = .ok hs0 →
      hfind rhs ("Sec-WebSocket-Extensions") = none →
      hfind rhs ("Sec-WebSocket-Protocol") = some s →
      handshake u o av none ex k (.ok (101, rhs)) =
        (initProto, .error (.typeError ("argument of type NoneType is not iterable"))) ∧
      connect u none o av none ex k (.ok ()) (.ok (101, rhs)) =
        { events := [.openTransport, .forceClose],
          sslUsed := some (if u.secure then some SSLParam.boolTrue else none),
          result := .error (.typeError ("argument of type NoneType is not iterable")) })) := by
  constructor
  · intro hb hext
    have hh : handshake u o none av ex k (.ok (101, rhs)) =
        (initProto, .error (.typeError ("argument of type NoneType is not iterable"))) := by
      rw [handshake_to_extensionsPhase u o none av ex k rhs hs0 hb hacc]
      unfold extensionsPhase
      rw [hext]
      simp only [verify_extensions_none (parseExtensionList s) (parseExtensionList_ne_nil s)]
    refine ⟨hh, ?hc⟩
    exact connect_handshake_error_outcome u none o none av ex k (.ok (101, rhs)) _ _
      (tlsPolicy_none u.secure) (by rw [hh])
  · intro hb hne hsub
    have hh : handshake u o av none ex k (.ok (101, rhs)) =
        (initProto, .error (.typeError ("argument of type NoneType is not iterable"))) := by
      rw [handshake_to_extensionsPhase u o av none ex k rhs hs0 hb hacc]
      unfold extensionsPhase
      rw [hne]
      unfold subprotocolPhase
      rw [hsub]
      simp only [verify_subprotocol_none s]
    refine ⟨hh, ?hc2⟩
    exact connect_handshake_error_outcome u none o av none ex k (.ok (101, rhs)) _ _
      (tlsPolicy_none u.secure) (by rw [hh])

/-- Witness for C9 at concrete inputs: with no extension offer list the
server-selected `foo` produces the NoneType `TypeError` (not
`InvalidHandshake`) and `connect` force-closes; likewise for a selected
subprotocol with no subprotocol offer list. -/
theorem none_offers_type_error_witness :
    (handshake u0 none none none none ("K0")
      (.ok (101, [("Sec-WebSocket-Accept", accept ("K0")),
        ("Sec-WebSocket-Extensions", "foo")])) =
      (initProto, .error (.typeError ("argument of type NoneType is not iterable"))) ∧
     connect u0 none none none none none ("K0") (.ok ())
      (.ok (101, [("Sec-WebSocket-Accept", accept ("K0")),
        ("Sec-WebSocket-Extensions", "foo")])) =
      { events := [.openTransport, .forceClose], sslUsed := some none,
        result := .error (.typeError ("argument of type NoneType is not iterable")) }) ∧
    (handshake u0 none none none none ("K0")
      (.ok (101, [("Sec-WebSocket-Accept", accept ("K0")),
        ("Sec-WebSocket-Protocol", "chat")])) =
      (initProto, .error (.typeError ("argument of type NoneType is not iterable")))) := by
  refine ⟨?sc1, ?sc2⟩
  · have h := (none_offers_type_error u0 none none none ("K0")
      [("Sec-WebSocket-Accept", accept ("K0")), ("Sec-WebSocket-Extensions", "foo")]
      ("foo") _ rfl).1 rfl rfl
    exact ⟨h.1, h.2⟩
  · exact ((none_offers_type_error u0 none none none ("K0")
      [("Sec-WebSocket-Accept", accept ("K0")), ("Sec-WebSocket-Protocol", "chat")]
      ("chat") _ rfl).2 rfl rfl rfl).1

theorem subPhase_result (avail : List String) (rhs : List Header) (p : Proto) (s : String)
    (hsub : hfind rhs ("Sec-WebSocket-Protocol") = some s) :
    subprotocolPhase (some avail) rhs p =
      (if s ∈ avail then ({ p with subprotocol := some s, state := .OPEN }, .ok ())
       else (p, .error (.invalidHandshake ("Unknown subprotocol: " ++ s)))) := by
  unfold subprotocolPhase
  rw [hsub]
  simp only [verify_subprotocol_some]
  by_cases h : s ∈ avail <;> simp [h]

theorem extPhase_to_subPhase (ae as : Option (List String)) (rhs : List Header)
    (hextok : ∀ s2, hfind rhs ("Sec-WebSocket-Extensions") = some s2 →
      verify_extensions ae (parseExtensionList s2) = .ok ()) :
    ∃ p, extensionsPhase ae as rhs = subprotocolPhase as rhs p ∧
      p.state = ConnState.CONNECTING := by
  unfold extensionsPhase
  cases hext : hfind rhs ("Sec-WebSocket-Extensions") with
  | none => exact ⟨initProto, rfl, rfl⟩
  | some s =>
    have hv := hextok s hext
    refine ⟨{ initProto with extensions := some (parseExtensionList s) }, ?he, rfl⟩
    simp only [hv]

/-- Claim C10: the Sec-WebSocket-Protocol response value is compared as a
single whole token against the offered subprotocol list — no comma-splitting
or trimming — so a value outside the offer list (for instance a
comma-separated listing of several offered subprotocols) fails the handshake
with "Unknown subprotocol", and an accepted value is exactly one element of
the offer list. -/
theorem subprotocol_whole_token (u : WSUri) (o : Option String)
    (ae : Option (List String)) (l : List String) (ex : Option ExtraHeaders) (k : String)
    (rhs : List Header) (s : String) (hs0 : List Header)
    (hb : buildHeaders u o ae (some l) ex k = .ok hs0)
    (hacc : hget rhs ("Sec-WebSocket-Accept") ("") = accept k)
    (hextok : ∀ s2, hfind rhs ("Sec-WebSocket-Extensions") = some s2 →
      verify_extensions ae (parseExtensionList s2) = .ok ())
    (hsub : hfind rhs ("Sec-WebSocket-Protocol") = some s) :
    ((s ∈ l →
       (handshake u o ae (some l) ex k (.ok (101, rhs))).2 = .ok () ∧
       (handshake u o ae (some l) ex k (.ok (101, rhs))).1.subprotocol = some s ∧
       (handshake u o ae (some l) ex k (.ok (101, rhs))).1.state = ConnState.OPEN) ∧
     (s ∉ l →
       (handshake u o ae (some l) ex k (.ok (101, rhs))).2 =
         .error (.invalidHandshake ("Unknown subprotocol: " ++ s)))) := by
  obtain ⟨p, hep, hps⟩ := extPhase_to_subPhase ae (some l) rhs hextok
  have heq := handshake_to_extensionsPhase u o ae (some l) ex k rhs hs0 hb hacc
  rw [hep] at heq
  rw [subPhase_result l rhs p s hsub] at heq
  constructor
  · intro hmem
    rw [heq, if_pos hmem]
    exact ⟨rfl, rfl, rfl⟩
  · intro hmem
    rw [heq, if_neg hmem]

/-- Witness for C10 at concrete inputs: with offers `chat` and `superchat`,
the whole-header value "chat, superchat" is rejected with "Unknown
subprotocol: chat, superchat" although each listed name was offered, while
the single value "chat" is accepted and recorded. -/
theorem subprotocol_whole_token_witness :
    (handshake u0 none none (some ["chat", "superchat"]) none ("K0")
      (.ok (101, [("Sec-WebSocket-Accept", accept ("K0")),
        ("Sec-WebSocket-Protocol", "chat, superchat")]))).2 =
      .error (.invalidHandshake ("Unknown subprotocol: chat, superchat")) ∧
    ((handshake u0 none none (some ["chat", "superchat"]) none ("K0")
      (.ok (101, [("Sec-WebSocket-Accept", accept ("K0")),
        ("Sec-WebSocket-Protocol", "chat")]))).2 = .ok () ∧
     (handshake u0 none none (some ["chat", "superchat"]) none ("K0")
      (.ok (101, [("Sec-WebSocket-Accept", accept ("K0")),
        ("Sec-WebSocket-Protocol", "chat")]))).1.subprotocol = some "chat") := by
  constructor
  · exact (subprotocol_whole_token u0 none none ["chat", "superchat"] none ("K0")
      [("Sec-WebSocket-Accept", accept ("K0")),
        ("Sec-WebSocket-Protocol", "chat, superchat")]
      ("chat, superchat") _ rfl rfl
      (fun s2 h => by
        rw [show hfind [("Sec-WebSocket-Accept", accept ("K0")),
          ("Sec-WebSocket-Protocol", "chat, superchat")] ("Sec-WebSocket-Extensions") =
          none from rfl] at h
        exact Option.noConfusion h) rfl).2 (by decide)
  · have h := (subprotocol_whole_token u0 none none ["chat", "superchat"] none ("K0")
      [("Sec-WebSocket-Accept", accept ("K0")), ("Sec-WebSocket-Protocol", "chat")]
      ("chat") _ rfl rfl
      (fun s2 h => by
        rw [show hfind [("Sec-WebSocket-Accept", accept ("K0")),
          ("Sec-WebSocket-Protocol", "chat")] ("Sec-WebSocket-Extensions") =
          none from rfl] at h
        exact Option.noConfusion h) rfl).1 (by decide)
    exact ⟨h.1, h.2.1⟩
